import Mathlib

/-!
Shallow embedding of the retroemu Core Bridge and Rendering Pipeline
(src/src/video/VideoOutput.js and the LibretroHost module), with proofs of
the specified properties about pixel conversion, environment negotiation,
frame pacing and render backpressure.
-/

set_option autoImplicit false

namespace RetroEmu

/-! ### Pixel-format and environment-command constants

Modelled from the spec: the numeric values come from src/constants/libretro.js,
which is referenced by the sources but absent from the snapshot; the values
follow the standard libretro enumeration.  Only their distinctness matters to
the dispatch logic embedded below. -/

def RETRO_PIXEL_FORMAT_0RGB1555 : Int := 0
def RETRO_PIXEL_FORMAT_XRGB8888 : Int := 1
def RETRO_PIXEL_FORMAT_RGB565 : Int := 2

def RETRO_DEVICE_JOYPAD : Nat := 1

def RETRO_ENVIRONMENT_SET_ROTATION : Nat := 1
def RETRO_ENVIRONMENT_GET_OVERSCAN : Nat := 2
def RETRO_ENVIRONMENT_GET_CAN_DUPE : Nat := 3
def RETRO_ENVIRONMENT_SET_MESSAGE : Nat := 6
def RETRO_ENVIRONMENT_SHUTDOWN : Nat := 7
def RETRO_ENVIRONMENT_SET_PERFORMANCE_LEVEL : Nat := 8
def RETRO_ENVIRONMENT_GET_SYSTEM_DIRECTORY : Nat := 9
def RETRO_ENVIRONMENT_SET_PIXEL_FORMAT : Nat := 10
def RETRO_ENVIRONMENT_SET_INPUT_DESCRIPTORS : Nat := 11
def RETRO_ENVIRONMENT_GET_VARIABLE : Nat := 15
def RETRO_ENVIRONMENT_SET_VARIABLES : Nat := 16
def RETRO_ENVIRONMENT_GET_VARIABLE_UPDATE : Nat := 17
def RETRO_ENVIRONMENT_SET_SUPPORT_NO_GAME : Nat := 18
def RETRO_ENVIRONMENT_GET_RUMBLE_INTERFACE : Nat := 23
def RETRO_ENVIRONMENT_GET_INPUT_DEVICE_CAPABILITIES : Nat := 24
def RETRO_ENVIRONMENT_GET_LOG_INTERFACE : Nat := 27
def RETRO_ENVIRONMENT_GET_SAVE_DIRECTORY : Nat := 31
def RETRO_ENVIRONMENT_SET_SUBSYSTEM_INFO : Nat := 34
def RETRO_ENVIRONMENT_SET_CONTROLLER_INFO : Nat := 35
def RETRO_ENVIRONMENT_SET_MEMORY_MAPS : Nat := 36
def RETRO_ENVIRONMENT_SET_GEOMETRY : Nat := 37
def RETRO_ENVIRONMENT_GET_USERNAME : Nat := 38
def RETRO_ENVIRONMENT_GET_LANGUAGE : Nat := 39
def RETRO_ENVIRONMENT_SET_SUPPORT_ACHIEVEMENTS : Nat := 42
def RETRO_ENVIRONMENT_SET_SERIALIZATION_QUIRKS : Nat := 44
def RETRO_ENVIRONMENT_GET_VFS_INTERFACE : Nat := 45
def RETRO_ENVIRONMENT_GET_AUDIO_VIDEO_ENABLE : Nat := 47
def RETRO_ENVIRONMENT_GET_INPUT_BITMASKS : Nat := 51
def RETRO_ENVIRONMENT_GET_CORE_OPTIONS_VERSION : Nat := 52
def RETRO_ENVIRONMENT_SET_CORE_OPTIONS_UPDATE_DISPLAY_CALLBACK : Nat := 69

/-! ### Pixel lookup tables (src/src/video/VideoOutput.js lines 12-15)

The JS code computes `RGB5_TO_8[i] = (i * 255 / 31 + 0.5) | 0` (truncation of a
non-negative float); embedded over the exact rationals, that is the floor of
the same expression. -/

def RGB5_TO_8 (i : Nat) : Nat := (⌊(i * 255 : ℚ) / 31 + 1 / 2⌋).toNat

def RGB6_TO_8 (i : Nat) : Nat := (⌊(i * 255 : ℚ) / 63 + 1 / 2⌋).toNat

/-- Body of the inner loop of `VideoOutput._convertXRGB8888` (lines 242-256):
the four RGBA bytes written for one `HEAPU32` source pixel. -/
def convertXRGB8888Pixel (pixel : Nat) : Nat × Nat × Nat × Nat :=
  ((pixel >>> 16) &&& 0xFF, (pixel >>> 8) &&& 0xFF, pixel &&& 0xFF, 255)

/-- Body of the inner loop of `VideoOutput._convertRGB565` (lines 258-272):
the four RGBA bytes written for one `HEAPU16` source pixel. -/
def convertRGB565Pixel (pixel : Nat) : Nat × Nat × Nat × Nat :=
  (RGB5_TO_8 ((pixel >>> 11) &&& 0x1F), RGB6_TO_8 ((pixel >>> 5) &&& 0x3F),
   RGB5_TO_8 (pixel &&& 0x1F), 255)

/-- Body of the inner loop of `VideoOutput._convert0RGB1555` (lines 274-288):
the four RGBA bytes written for one `HEAPU16` source pixel. -/
def convert0RGB1555Pixel (pixel : Nat) : Nat × Nat × Nat × Nat :=
  (RGB5_TO_8 ((pixel >>> 10) &&& 0x1F), RGB5_TO_8 ((pixel >>> 5) &&& 0x1F),
   RGB5_TO_8 (pixel &&& 0x1F), 255)

/-! ### JavaScript string primitives used by `LibretroHost._handleEnvironment`

`jsIndexOf` embeds `String.prototype.indexOf` (first index of a substring, or
-1), `jsSubstringFrom`/`jsSubstringTo` embed `substring(a)` / `substring(0, a)`,
and `jsSplit` embeds `split` with a one-character separator. -/

def findSub : List Char → List Char → Option Nat
  | [], pat => if pat.isEmpty then some 0 else none
  | c :: tl, pat =>
    if pat.isPrefixOf (c :: tl) then some 0 else (findSub tl pat).map (· + 1)

def jsIndexOf (s pat : String) : Int :=
  match findSub s.data pat.data with
  | some n => (n : Int)
  | none => -1

def jsSubstringFrom (s : String) (start : Nat) : String := String.mk (s.data.drop start)

def jsSubstringTo (s : String) (stop : Nat) : String := String.mk (s.data.take stop)

def splitCharAux (sep : Char) : List Char → List (List Char)
  | [] => [[]]
  | c :: tl =>
    match splitCharAux sep tl with
    | [] => [[c]]
    | h :: t => if c = sep then [] :: h :: t else (c :: h) :: t

def jsSplit (s : String) (sep : Char) : List String := (splitCharAux sep s.data).map String.mk

/-! ### Environment variable table (LibretroHost, src/unnamed/part_001)

`coreVariables` is a JS `Map` from variable key to
`{description, options, value}`; we embed it as an insertion-ordered
association list with `Map.get` / `Map.set` semantics. -/

structure CoreVar where
  description : String
  options : List String
  value : String
deriving DecidableEq

def mapGet : List (String × CoreVar) → String → Option CoreVar
  | [], _ => none
  | (k, v) :: tl, key => if k = key then some v else mapGet tl key

def mapSet : List (String × CoreVar) → String → CoreVar → List (String × CoreVar)
  | [], key, v => [(key, v)]
  | (k, w) :: tl, key, v =>
    if k = key then (k, v) :: tl else (k, w) :: mapSet tl key v

/-! ### Foreign (WASM) memory, as seen through the Emscripten accessors

`i32 a` is `mod.getValue(a, 'i32')`, `i8 a` is `mod.getValue(a, 'i8')` (as
written by `setValue(..., 'i8')`), and `str a` is `mod.UTF8ToString(a)`. -/

structure EnvMem where
  i32 : Int → Int
  i8 : Int → Int
  str : Int → String

def setI32 (mem : EnvMem) (addr v : Int) : EnvMem :=
  { mem with i32 := fun a => if a = addr then v else mem.i32 a }

def setI8 (mem : EnvMem) (addr v : Int) : EnvMem :=
  { mem with i8 := fun a => if a = addr then v else mem.i8 a }

/-! ### LibretroHost state (constructor fields used by the environment path) -/

structure HostState where
  pixelFormat : Int
  coreVariables : List (String × CoreVar)
  variablesUpdated : Bool
  running : Bool
  systemDir : String
  saveDir : String
  allocatedStrings : List Int
  nextPtr : Int

/-- `LibretroHost._allocString` (lines 534-541): `_malloc` a fresh buffer,
write the UTF-8 bytes, record the pointer in `_allocatedStrings`, return the
pointer.  `nextPtr` stands for the malloc bump pointer; a fresh allocation is
the current `nextPtr` and advances it past the written bytes. -/
def allocString (st : HostState) (mem : EnvMem) (s : String) : Int × HostState × EnvMem :=
  let p := st.nextPtr
  (p,
   { st with
     allocatedStrings := st.allocatedStrings ++ [p],
     nextPtr := p + (s.utf8ByteSize : Int) + 1 },
   { mem with str := fun a => if a = p then s else mem.str a })

/-- The `retro_variable` array walk in the `SET_VARIABLES` case
(lines 301-319): read `{key, value}` pairs at `dataPtr`, `dataPtr+8`, ...
until a NULL key.  `fuel` bounds the walk (the JS loop runs until the core's
terminator; every claim is settled on finite memories). -/
def readVarEntries : Nat → EnvMem → Int → List (String × String)
  | 0, _, _ => []
  | fuel + 1, mem, ptr =>
    let keyPtr := mem.i32 ptr
    if keyPtr = 0 then []
    else (mem.str keyPtr, mem.str (mem.i32 (ptr + 4))) :: readVarEntries fuel mem (ptr + 8)

/-- Loop body of the `SET_VARIABLES` case (lines 308-317): parse
`"Description; option1|option2|option3"`; entries without the `"; "` separator
are skipped. -/
def parseVarDecl (vars : List (String × CoreVar)) (key desc : String) :
    List (String × CoreVar) :=
  let semiIdx := jsIndexOf desc "; "
  if 0 ≤ semiIdx then
    let options := jsSplit (jsSubstringFrom desc (semiIdx.toNat + 2)) '|'
    mapSet vars key
      { description := jsSubstringTo desc semiIdx.toNat,
        options := options,
        value := options.headD "" }
  else
    vars

/-- `LibretroHost._handleEnvironment` (lines 249-418) after the experimental
bit has been masked off: the `switch (baseCmd)` dispatch.  Returns the bool
result together with the updated host state and memory.  The `default` case
only logs to a diagnostic file and returns false; the logging side effect is
outside the embedded state. -/
def handleEnvBase (fuel : Nat) (st : HostState) (mem : EnvMem) (baseCmd : Nat)
    (dataPtr : Int) : Bool × HostState × EnvMem :=
  if baseCmd = RETRO_ENVIRONMENT_GET_CAN_DUPE then
    (true, st, setI8 mem dataPtr 1)
  else if baseCmd = RETRO_ENVIRONMENT_SET_MESSAGE then
    (true, st, mem)
  else if baseCmd = RETRO_ENVIRONMENT_SET_PIXEL_FORMAT then
    let format := mem.i32 dataPtr
    if format = RETRO_PIXEL_FORMAT_0RGB1555 ∨ format = RETRO_PIXEL_FORMAT_XRGB8888 ∨
        format = RETRO_PIXEL_FORMAT_RGB565 then
      (true, { st with pixelFormat := format }, mem)
    else
      (false, st, mem)
  else if baseCmd = RETRO_ENVIRONMENT_GET_SYSTEM_DIRECTORY then
    let r := allocString st mem st.systemDir
    (true, r.2.1, setI32 r.2.2 dataPtr r.1)
  else if baseCmd = RETRO_ENVIRONMENT_GET_SAVE_DIRECTORY then
    let r := allocString st mem st.saveDir
    (true, r.2.1, setI32 r.2.2 dataPtr r.1)
  else if baseCmd = RETRO_ENVIRONMENT_GET_LOG_INTERFACE then
    (false, st, mem)
  else if baseCmd = RETRO_ENVIRONMENT_SET_VARIABLES then
    let entries := readVarEntries fuel mem dataPtr
    (true,
     { st with
       coreVariables := entries.foldl (fun vs kv => parseVarDecl vs kv.1 kv.2) st.coreVariables },
     mem)
  else if baseCmd = RETRO_ENVIRONMENT_GET_VARIABLE then
    let keyPtr := mem.i32 dataPtr
    if keyPtr = 0 then (false, st, mem)
    else
      match mapGet st.coreVariables (mem.str keyPtr) with
      | none => (false, st, setI32 mem (dataPtr + 4) 0)
      | some v =>
        let r := allocString st mem v.value
        (true, r.2.1, setI32 r.2.2 (dataPtr + 4) r.1)
  else if baseCmd = RETRO_ENVIRONMENT_GET_VARIABLE_UPDATE then
    (true, { st with variablesUpdated := false },
     setI8 mem dataPtr (if st.variablesUpdated then 1 else 0))
  else if baseCmd = RETRO_ENVIRONMENT_GET_OVERSCAN then
    (true, st, setI8 mem dataPtr 0)
  else if baseCmd = RETRO_ENVIRONMENT_SET_INPUT_DESCRIPTORS ∨
      baseCmd = RETRO_ENVIRONMENT_SET_CONTROLLER_INFO ∨
      baseCmd = RETRO_ENVIRONMENT_SET_SUBSYSTEM_INFO ∨
      baseCmd = RETRO_ENVIRONMENT_SET_MEMORY_MAPS ∨
      baseCmd = RETRO_ENVIRONMENT_SET_SUPPORT_NO_GAME ∨
      baseCmd = RETRO_ENVIRONMENT_SET_PERFORMANCE_LEVEL ∨
      baseCmd = RETRO_ENVIRONMENT_SET_GEOMETRY ∨
      baseCmd = RETRO_ENVIRONMENT_SET_ROTATION ∨
      baseCmd = RETRO_ENVIRONMENT_SET_SUPPORT_ACHIEVEMENTS then
    (true, st, mem)
  else if baseCmd = RETRO_ENVIRONMENT_GET_RUMBLE_INTERFACE then
    (false, st, mem)
  else if baseCmd = RETRO_ENVIRONMENT_GET_INPUT_DEVICE_CAPABILITIES then
    (true, st, setI32 mem dataPtr (Int.ofNat (1 <<< RETRO_DEVICE_JOYPAD)))
  else if baseCmd = RETRO_ENVIRONMENT_GET_INPUT_BITMASKS then
    (true, st, mem)
  else if baseCmd = RETRO_ENVIRONMENT_GET_AUDIO_VIDEO_ENABLE then
    (true, st, setI32 mem dataPtr 7)
  else if baseCmd = RETRO_ENVIRONMENT_GET_VFS_INTERFACE then
    (false, st, mem)
  else if baseCmd = RETRO_ENVIRONMENT_SET_SERIALIZATION_QUIRKS ∨
      baseCmd = RETRO_ENVIRONMENT_SET_CORE_OPTIONS_UPDATE_DISPLAY_CALLBACK then
    (true, st, mem)
  else if baseCmd = RETRO_ENVIRONMENT_GET_CORE_OPTIONS_VERSION then
    (true, st, setI32 mem dataPtr 0)
  else if baseCmd = RETRO_ENVIRONMENT_GET_LANGUAGE then
    (true, st, setI32 mem dataPtr 0)
  else if baseCmd = RETRO_ENVIRONMENT_GET_USERNAME then
    let r := allocString st mem "player"
    (true, r.2.1, setI32 r.2.2 dataPtr r.1)
  else if baseCmd = RETRO_ENVIRONMENT_SHUTDOWN then
    (true, { st with running := false }, mem)
  else
    (false, st, mem)

/-- `LibretroHost._handleEnvironment`: mask off the
`RETRO_ENVIRONMENT_EXPERIMENTAL` flag (`0x10000`) and dispatch.  `cmd` is the
unsigned 32-bit command code. -/
def handleEnvironment (fuel : Nat) (st : HostState) (mem : EnvMem) (cmd : Nat)
    (dataPtr : Int) : Bool × HostState × EnvMem :=
  handleEnvBase fuel st mem (cmd &&& 0xFFFEFFFF) dataPtr

/-! ### Render scheduler state machine (src/src/video/VideoOutput.js)

`onFrame` (lines 142-216) decides per frame whether to dispatch a terminal
render request; the worker's `'frame'` message handler (lines 77-78) clears
`pendingFrame`.  Only the fields that drive that decision are modelled. -/

inductive VideoMode
  | terminal
  | sdl
  | both
deriving DecidableEq

structure VOState where
  mode : VideoMode
  workerReady : Bool
  frameCount : Nat
  renderEveryN : Nat
  pendingFrame : Bool
deriving DecidableEq

/-- `VideoOutput.onFrame`: returns whether a render request was posted to the
worker together with the updated state.  The pixel conversion, SDL rendering
and geometry computation do not touch these fields. -/
def onFrame (st : VOState) : Bool × VOState :=
  let frameCount := st.frameCount + 1
  let useTerminal := st.mode == VideoMode.terminal || st.mode == VideoMode.both
  let useSDL := st.mode == VideoMode.sdl || st.mode == VideoMode.both
  let skipTerminalFrame := useTerminal && (frameCount % st.renderEveryN != 0)
  let terminalBusy := useTerminal && (st.pendingFrame || !st.workerReady)
  if !useSDL && (skipTerminalFrame || terminalBusy) then
    (false, { st with frameCount := frameCount })
  else if useTerminal && !skipTerminalFrame && !terminalBusy then
    (true, { st with frameCount := frameCount, pendingFrame := true })
  else
    (false, { st with frameCount := frameCount })

/-- Handler of the worker's `'frame'` completion message (line 78):
`this.pendingFrame = false`. -/
def onWorkerFrameMsg (st : VOState) : VOState := { st with pendingFrame := false }

inductive VOEvent
  | frame
  | complete
deriving DecidableEq

/-- A trace is valid when every completion message answers an outstanding
request (the worker sends exactly one `'frame'` message per posted request). -/
def validTrace : VOState → List VOEvent → Bool
  | _, [] => true
  | st, VOEvent.frame :: es => validTrace (onFrame st).2 es
  | st, VOEvent.complete :: es => st.pendingFrame && validTrace (onWorkerFrameMsg st) es

/-- Run a trace of frame arrivals and completion messages, counting dispatched
and completed render requests. -/
def runCount : VOState → List VOEvent → Nat × Nat → VOState × Nat × Nat
  | st, [], dc => (st, dc)
  | st, VOEvent.frame :: es, (d, c) =>
    let r := onFrame st
    runCount r.2 es (if r.1 then d + 1 else d, c)
  | st, VOEvent.complete :: es, (d, c) => runCount (onWorkerFrameMsg st) es (d, c + 1)

/-! ### Frame pacing loop (`LibretroHost._runLoop`, lines 505-532) -/

/-- `frameDurationMs = 1000 / fps` (line 507). -/
def frameDurationMs (fps : ℚ) : ℚ := 1000 / fps

/-- JavaScript `%` on non-negative finite numbers: `a - b * trunc(a / b)`,
which equals `a - b * floor(a / b)` for `0 ≤ a` and `0 < b`. -/
def jsMod (a b : ℚ) : ℚ := a - b * ⌊a / b⌋

structure TickResult where
  ran : Bool
  lastFrameTime : ℚ
deriving DecidableEq

/-- One `tick` of `_runLoop` (lines 510-521): run a single core step exactly
when the elapsed time reaches the frame interval, and advance the reference
time to `now - (elapsed % frameDurationMs)`. -/
def runLoopTick (d now lastFrameTime : ℚ) : TickResult :=
  let elapsed := now - lastFrameTime
  if d ≤ elapsed then
    { ran := true, lastFrameTime := now - jsMod elapsed d }
  else
    { ran := false, lastFrameTime := lastFrameTime }

/-- Number of `_retro_run` core steps a tick executes. -/
def tickSteps (t : TickResult) : Nat := if t.ran then 1 else 0

/-! ### AV info decoding (`LibretroHost._getSystemAVInfo`, lines 454-503)

Floats are abstracted as exact rationals; `i32/f32/f64` are the
`mod.getValue` reads at the given byte address. -/

structure AVMem where
  i32 : Int → Int
  f32 : Int → ℚ
  f64 : Int → ℚ

structure RetroGameGeometry where
  baseWidth : Int
  baseHeight : Int
  maxWidth : Int
  maxHeight : Int
  aspect : ℚ
deriving DecidableEq

structure RetroSystemTiming where
  fps : ℚ
  sampleRate : ℚ
deriving DecidableEq

structure RetroSystemAVInfo where
  geometry : RetroGameGeometry
  timing : RetroSystemTiming
deriving DecidableEq

/-- `_getSystemAVInfo`: decode the foreign record at `avInfoPtr`.  The
`aspect` field embeds the source's `aspectRatio`, guarded to `4/3` when the
decoded value is not positive (line 496). -/
def getSystemAVInfo (mem : AVMem) (avInfoPtr : Int) : RetroSystemAVInfo :=
  let timingOffset : Int := 24
  let aspectRaw := mem.f32 (avInfoPtr + 16)
  { geometry :=
    { baseWidth := mem.i32 avInfoPtr,
      baseHeight := mem.i32 (avInfoPtr + 4),
      maxWidth := mem.i32 (avInfoPtr + 8),
      maxHeight := mem.i32 (avInfoPtr + 12),
      aspect := if 0 < aspectRaw then aspectRaw else 4 / 3 },
    timing :=
    { fps := mem.f64 (avInfoPtr + timingOffset),
      sampleRate := mem.f64 (avInfoPtr + timingOffset + 8) } }

/-! ### Terminal grid geometry fit (`VideoOutput.onFrame`, lines 172-191) -/

/-- Compute `(usedCols, usedRows)` from the terminal capacity, the display
aspect (`this.displayAspectRatio`) and the fixed character-cell aspect 2.0. -/
def fitGrid (termCols termRows : Nat) (sourceAspect : ℚ) : Int × Int :=
  let termCharAspect : ℚ := 2
  let rowsNeededForWidth : ℚ := (termCols : ℚ) / (sourceAspect * termCharAspect)
  if rowsNeededForWidth ≤ (termRows : ℚ) then
    ((termCols : Int), ⌊rowsNeededForWidth⌋)
  else
    (⌊(termRows : ℚ) * sourceAspect * termCharAspect⌋, (termRows : Int))

/-! ### Callback registration (`LibretroHost._registerCallbacks`, lines 208-247)

Each registered entry point is the literal arrow function passed to
`mod.addFunction`; a host handler that may throw is modelled as returning in
`Except String`.  None of the six registrations wraps its handler in
`try`/`catch`, so the embedded callbacks propagate the handler's outcome. -/

def envCallback (handler : Nat → Int → Except String Bool) (cmd : Nat) (dataPtr : Int) :
    Except String Int :=
  (handler cmd dataPtr).map (fun b => if b then 1 else 0)

def videoRefreshCallback (handler : Int → Nat → Nat → Nat → Except String Unit)
    (dataPtr : Int) (width height pitch : Nat) : Except String Unit :=
  if dataPtr = 0 then Except.ok () else handler dataPtr width height pitch

def audioBatchCallback (handler : Int → Nat → Except String Nat) (dataPtr : Int)
    (frames : Nat) : Except String Nat :=
  handler dataPtr frames

def audioSampleCallback (handler : Int → Int → Except String Unit) (left right : Int) :
    Except String Unit :=
  handler left right

def inputPollCallback (handler : Unit → Except String Unit) : Except String Unit :=
  handler ()

def inputStateCallback (handler : Nat → Nat → Nat → Nat → Except String Int)
    (port device index id : Nat) : Except String Int :=
  handler port device index id

/-- The 5-bit table value as a natural-number division, for evaluation. -/
theorem RGB5_TO_8_eq (i : Nat) : RGB5_TO_8 i = (510 * i + 31) / 62 := by
  unfold RGB5_TO_8
  have h : (i * 255 : ℚ) / 31 + 1 / 2 = ((510 * i + 31 : ℕ) : ℚ) / ((62 : ℕ) : ℚ) := by
    push_cast; ring
  rw [h, Rat.floor_natCast_div_natCast]
  omega

/-- The 6-bit table value as a natural-number division, for evaluation. -/
theorem RGB6_TO_8_eq (i : Nat) : RGB6_TO_8 i = (510 * i + 63) / 126 := by
  unfold RGB6_TO_8
  have h : (i * 255 : ℚ) / 63 + 1 / 2 = ((510 * i + 63 : ℕ) : ℚ) / ((126 : ℕ) : ℚ) := by
    push_cast; ring
  rw [h, Rat.floor_natCast_div_natCast]
  omega

/-! ### Helper lemmas -/

theorem mapGet_mapSet_self (m : List (String × CoreVar)) (k : String) (v : CoreVar) :
    mapGet (mapSet m k v) k = some v := by
  induction m with
  | nil => simp [mapSet, mapGet]
  | cons hd tl ih =>
    obtain ⟨k', w⟩ := hd
    by_cases h : k' = k
    · simp [mapSet, mapGet, h]
    · simp [mapSet, mapGet, h, ih]

theorem mapGet_mapSet_ne (m : List (String × CoreVar)) (k key : String) (v : CoreVar)
    (h : k ≠ key) : mapGet (mapSet m k v) key = mapGet m key := by
  induction m with
  | nil => simp [mapSet, mapGet, h]
  | cons hd tl ih =>
    obtain ⟨k', w⟩ := hd
    by_cases h' : k' = k
    · subst h'
      simp [mapSet, mapGet, h]
    · simp [mapSet, mapGet, h', ih]

theorem monotone_of_adjacent (f : Nat → Nat) (hadj : ∀ k, f k ≤ f (k + 1)) :
    ∀ i j : Nat, i ≤ j → f i ≤ f j := by
  intro i j hij
  induction j with
  | zero => simp [Nat.le_zero.mp hij]
  | succ n ih =>
    rcases Nat.lt_or_ge i (n + 1) with h | h
    · exact le_trans (ih (Nat.lt_succ_iff.mp h)) (hadj n)
    · have : i = n + 1 := le_antisymm hij h
      simp [this]

/-- C6: for each of the three supported pixel encodings, a full-white source
pixel converts to RGBA (255,255,255,255), a full-black pixel converts to
(0,0,0,255), and the alpha byte written is 255 for every source pixel. -/
theorem pixel_conversion_white_black_alpha :
    convertXRGB8888Pixel 0xFFFFFF = (255, 255, 255, 255) ∧
    convertXRGB8888Pixel 0 = (0, 0, 0, 255) ∧
    convertRGB565Pixel 0xFFFF = (255, 255, 255, 255) ∧
    convertRGB565Pixel 0 = (0, 0, 0, 255) ∧
    convert0RGB1555Pixel 0x7FFF = (255, 255, 255, 255) ∧
    convert0RGB1555Pixel 0 = (0, 0, 0, 255) ∧
    (∀ pixel : Nat, (convertXRGB8888Pixel pixel).2.2.2 = 255) ∧
    (∀ pixel : Nat, (convertRGB565Pixel pixel).2.2.2 = 255) ∧
    (∀ pixel : Nat, (convert0RGB1555Pixel pixel).2.2.2 = 255) := by
  refine ⟨by decide, by decide, ?_, ?_, ?_, ?_, fun _ => rfl, fun _ => rfl, fun _ => rfl⟩ <;>
    simp [convertRGB565Pixel, convert0RGB1555Pixel, RGB5_TO_8_eq, RGB6_TO_8_eq] <;> decide

/-- C7: the 5-bit table entry `i` is `round(i*255/31)` for `i ≤ 31`, the 6-bit
table entry `i` is `round(i*255/63)` for `i ≤ 63`, both tables map 0 to 0 and
their maximal index to 255, and both are monotonically non-decreasing. -/
theorem lookup_tables_correct :
    (∀ i : Nat, i ≤ 31 → (RGB5_TO_8 i : ℤ) = round ((i * 255 : ℚ) / 31)) ∧
    (∀ i : Nat, i ≤ 63 → (RGB6_TO_8 i : ℤ) = round ((i * 255 : ℚ) / 63)) ∧
    RGB5_TO_8 0 = 0 ∧ RGB5_TO_8 31 = 255 ∧ RGB6_TO_8 0 = 0 ∧ RGB6_TO_8 63 = 255 ∧
    (∀ i j : Nat, i ≤ j → j ≤ 31 → RGB5_TO_8 i ≤ RGB5_TO_8 j) ∧
    (∀ i j : Nat, i ≤ j → j ≤ 63 → RGB6_TO_8 i ≤ RGB6_TO_8 j) := by
  refine ⟨?_, ?_, ?_, ?_, ?_, ?_, ?_, ?_⟩
  · intro i _
    rw [round_eq]
    unfold RGB5_TO_8
    rw [Int.toNat_of_nonneg (Int.floor_nonneg.2 (by positivity))]
  · intro i _
    rw [round_eq]
    unfold RGB6_TO_8
    rw [Int.toNat_of_nonneg (Int.floor_nonneg.2 (by positivity))]
  · rw [RGB5_TO_8_eq]
  · rw [RGB5_TO_8_eq]
  · rw [RGB6_TO_8_eq]
  · rw [RGB6_TO_8_eq]
  · intro i j hij _
    refine monotone_of_adjacent _ (fun k => ?_) i j hij
    rw [RGB5_TO_8_eq, RGB5_TO_8_eq]
    exact Nat.div_le_div_right (by omega)
  · intro i j hij _
    refine monotone_of_adjacent _ (fun k => ?_) i j hij
    rw [RGB6_TO_8_eq, RGB6_TO_8_eq]
    exact Nat.div_le_div_right (by omega)

/-- Witness for `lookup_tables_correct` at concrete indices. -/
theorem lookup_tables_correct_witness :
    (17 : Nat) ≤ 31 ∧ (RGB5_TO_8 17 : ℤ) = round (((17 : ℕ) * 255 : ℚ) / 31) ∧
    (3 : Nat) ≤ 17 ∧ RGB5_TO_8 3 ≤ RGB5_TO_8 17 :=
  ⟨by norm_num, lookup_tables_correct.1 17 (by norm_num), by norm_num,
   lookup_tables_correct.2.2.2.2.2.2.1 3 17 (by norm_num) (by norm_num)⟩

/-- C2 (code evaluated at the failing input): none of the six registered
callbacks wraps its handler, so an exception thrown by the host-side handler
propagates to the foreign boundary instead of being converted into a safe
default return value. -/
theorem callbacks_propagate_thrown_exceptions :
    envCallback (fun _ _ => Except.error "boom") 15 0 = Except.error "boom" ∧
    videoRefreshCallback (fun _ _ _ _ => Except.error "boom") 1024 256 224 512 =
      Except.error "boom" ∧
    audioBatchCallback (fun _ _ => Except.error "boom") 2048 64 = Except.error "boom" ∧
    audioSampleCallback (fun _ _ => Except.error "boom") 100 (-100) = Except.error "boom" ∧
    inputPollCallback (fun _ => Except.error "boom") = Except.error "boom" ∧
    inputStateCallback (fun _ _ _ _ => Except.error "boom") 0 1 0 0 = Except.error "boom" :=
  ⟨rfl, rfl, rfl, rfl, rfl, rfl⟩

/-- C9: the AV-info decoder reads the 32-bit fields at offsets +0/+4/+8/+12,
the 32-bit float aspect at +16, and the 64-bit floats at the 8-byte-aligned
offsets +24 and +32; the returned aspect is always positive, a non-positive
decoded value being replaced by 4/3. -/
theorem avinfo_layout (mem : AVMem) (p : Int) :
    (getSystemAVInfo mem p).geometry.baseWidth = mem.i32 p ∧
    (getSystemAVInfo mem p).geometry.baseHeight = mem.i32 (p + 4) ∧
    (getSystemAVInfo mem p).geometry.maxWidth = mem.i32 (p + 8) ∧
    (getSystemAVInfo mem p).geometry.maxHeight = mem.i32 (p + 12) ∧
    (getSystemAVInfo mem p).timing.fps = mem.f64 (p + 24) ∧
    (getSystemAVInfo mem p).timing.sampleRate = mem.f64 (p + 32) ∧
    0 < (getSystemAVInfo mem p).geometry.aspect ∧
    (0 < mem.f32 (p + 16) →
      (getSystemAVInfo mem p).geometry.aspect = mem.f32 (p + 16)) ∧
    (¬ 0 < mem.f32 (p + 16) → (getSystemAVInfo mem p).geometry.aspect = 4 / 3) := by
  have h32 : p + 24 + 8 = p + 32 := by ring
  by_cases h : 0 < mem.f32 (p + 16) <;>
    simp [getSystemAVInfo, h, h32]

/-- Witness for `avinfo_layout`: on a memory whose decoded aspect is 0 the
returned aspect defaults to 4/3. -/
theorem avinfo_layout_witness :
    (getSystemAVInfo ⟨fun _ => 0, fun _ => 0, fun _ => 60⟩ 0).geometry.aspect = 4 / 3 ∧
    0 < (getSystemAVInfo ⟨fun _ => 0, fun _ => 0, fun _ => 60⟩ 0).geometry.aspect :=
  ⟨(avinfo_layout ⟨fun _ => 0, fun _ => 0, fun _ => 60⟩ 0).2.2.2.2.2.2.2.2 (by norm_num),
   (avinfo_layout ⟨fun _ => 0, fun _ => 0, fun _ => 60⟩ 0).2.2.2.2.2.2.1⟩

theorem jsMod_eq_fract (a b : ℚ) (hb : 0 < b) : jsMod a b = b * Int.fract (a / b) := by
  unfold jsMod Int.fract
  rw [mul_sub, mul_div_cancel₀ _ hb.ne']

theorem jsMod_nonneg (a b : ℚ) (hb : 0 < b) : 0 ≤ jsMod a b := by
  rw [jsMod_eq_fract a b hb]
  exact mul_nonneg hb.le (Int.fract_nonneg _)

theorem jsMod_lt (a b : ℚ) (hb : 0 < b) : jsMod a b < b := by
  rw [jsMod_eq_fract a b hb]
  calc b * Int.fract (a / b) < b * 1 := by
        exact mul_lt_mul_of_pos_left (Int.fract_lt_one _) hb
    _ = b := mul_one b

/-- C3: the pacing loop uses the interval `1000 / fps`; a tick executes at
most one core step, executes one exactly when the elapsed time reaches the
interval, and after a step the reference time is advanced so that the residual
elapsed time is in `[0, interval)` — an immediate second tick runs no step. -/
theorem runLoop_pacing (fps now last : ℚ) (hfps : 0 < fps) :
    frameDurationMs fps = 1000 / fps ∧
    tickSteps (runLoopTick (frameDurationMs fps) now last) ≤ 1 ∧
    ((runLoopTick (frameDurationMs fps) now last).ran = true ↔
      frameDurationMs fps ≤ now - last) ∧
    ((runLoopTick (frameDurationMs fps) now last).ran = true →
      0 ≤ now - (runLoopTick (frameDurationMs fps) now last).lastFrameTime ∧
      now - (runLoopTick (frameDurationMs fps) now last).lastFrameTime <
        frameDurationMs fps ∧
      (runLoopTick (frameDurationMs fps) now
          (runLoopTick (frameDurationMs fps) now last).lastFrameTime).ran = false) := by
  have hd : 0 < frameDurationMs fps := by
    unfold frameDurationMs; positivity
  refine ⟨rfl, ?_, ?_, ?_⟩
  · unfold tickSteps
    split <;> norm_num
  · by_cases h : frameDurationMs fps ≤ now - last <;> simp [runLoopTick, h]
  · intro hr
    by_cases h : frameDurationMs fps ≤ now - last
    · have hm0 := jsMod_nonneg (now - last) (frameDurationMs fps) hd
      have hm1 := jsMod_lt (now - last) (frameDurationMs fps) hd
      have hkey : now - (runLoopTick (frameDurationMs fps) now last).lastFrameTime =
          jsMod (now - last) (frameDurationMs fps) := by
        simp [runLoopTick, h, sub_sub_cancel]
      refine ⟨by rw [hkey]; exact hm0, by rw [hkey]; exact hm1, ?_⟩
      have hnot : ¬ frameDurationMs fps ≤
          now - (runLoopTick (frameDurationMs fps) now last).lastFrameTime := by
        rw [hkey]
        exact not_le.2 hm1
      set L := (runLoopTick (frameDurationMs fps) now last).lastFrameTime with hL
      simp [runLoopTick, hnot]
    · exfalso
      simp [runLoopTick, h] at hr

/-- Witness for `runLoop_pacing` at fps 60, now 100, reference 0. -/
theorem runLoop_pacing_witness :
    (0 : ℚ) < 60 ∧ frameDurationMs 60 = 1000 / 60 ∧
    tickSteps (runLoopTick (frameDurationMs 60) 100 0) ≤ 1 :=
  ⟨by norm_num, (runLoop_pacing 60 100 0 (by norm_num)).1,
   (runLoop_pacing 60 100 0 (by norm_num)).2.1⟩

/-- C8: for every positive terminal capacity and positive source aspect, the
computed grid fits the capacity in both dimensions; the width-constrained fit
is chosen exactly when `termCols / (aspect * 2) ≤ termRows`, otherwise the
height-constrained fit, and the continuous fit is matched to within one unit
of rounding in the computed dimension. -/
theorem fitGrid_capacity (termCols termRows : Nat) (sourceAspect : ℚ)
    (hcols : 0 < termCols) (hrows : 0 < termRows) (haspect : 0 < sourceAspect) :
    (fitGrid termCols termRows sourceAspect).1 ≤ (termCols : Int) ∧
    (fitGrid termCols termRows sourceAspect).2 ≤ (termRows : Int) ∧
    0 ≤ (fitGrid termCols termRows sourceAspect).1 ∧
    0 ≤ (fitGrid termCols termRows sourceAspect).2 ∧
    ((termCols : ℚ) / (sourceAspect * 2) ≤ (termRows : ℚ) →
      fitGrid termCols termRows sourceAspect =
        ((termCols : Int), ⌊(termCols : ℚ) / (sourceAspect * 2)⌋) ∧
      ((⌊(termCols : ℚ) / (sourceAspect * 2)⌋ : ℚ) ≤ (termCols : ℚ) / (sourceAspect * 2) ∧
        (termCols : ℚ) / (sourceAspect * 2) < (⌊(termCols : ℚ) / (sourceAspect * 2)⌋ : ℚ) + 1)) ∧
    (¬ (termCols : ℚ) / (sourceAspect * 2) ≤ (termRows : ℚ) →
      fitGrid termCols termRows sourceAspect =
        (⌊(termRows : ℚ) * sourceAspect * 2⌋, (termRows : Int)) ∧
      ((⌊(termRows : ℚ) * sourceAspect * 2⌋ : ℚ) ≤ (termRows : ℚ) * sourceAspect * 2 ∧
        (termRows : ℚ) * sourceAspect * 2 < (⌊(termRows : ℚ) * sourceAspect * 2⌋ : ℚ) + 1)) := by
  have ha2 : 0 < sourceAspect * 2 := by positivity
  by_cases h : (termCols : ℚ) / (sourceAspect * 2) ≤ (termRows : ℚ)
  · have hfit : fitGrid termCols termRows sourceAspect =
        ((termCols : Int), ⌊(termCols : ℚ) / (sourceAspect * 2)⌋) := by
      simp [fitGrid, h]
    rw [hfit]
    refine ⟨le_refl _, ?_, Int.natCast_nonneg termCols, ?_,
      fun _ => ⟨rfl, Int.floor_le _, Int.lt_floor_add_one _⟩, fun hc => absurd h hc⟩
    · have hf := Int.floor_le_floor h
      rwa [Int.floor_natCast] at hf
    · exact Int.floor_nonneg.2 (by positivity)
  · have hfit : fitGrid termCols termRows sourceAspect =
        (⌊(termRows : ℚ) * sourceAspect * 2⌋, (termRows : Int)) := by
      simp [fitGrid, h]
    have hlt : (termRows : ℚ) * sourceAspect * 2 < (termCols : ℚ) := by
      have h' := lt_of_not_le h
      rw [lt_div_iff₀ ha2] at h'
      calc (termRows : ℚ) * sourceAspect * 2 = (termRows : ℚ) * (sourceAspect * 2) := by ring
        _ < (termCols : ℚ) := h'
    rw [hfit]
    refine ⟨?_, le_refl _, ?_, Int.natCast_nonneg termRows, fun hc => absurd hc h,
      fun _ => ⟨rfl, Int.floor_le _, Int.lt_floor_add_one _⟩⟩
    · have hcast : (⌊(termRows : ℚ) * sourceAspect * 2⌋ : ℚ) < (termCols : ℚ) :=
        lt_of_le_of_lt (Int.floor_le _) hlt
      exact_mod_cast le_of_lt hcast
    · exact Int.floor_nonneg.2 (by positivity)

/-- Witness for `fitGrid_capacity`: the 80x20 capacity with source aspect 4/3
yields the height-constrained grid 53x20, within capacity. -/
theorem fitGrid_capacity_witness :
    fitGrid 80 20 (4 / 3) = (53, 20) ∧
    (fitGrid 80 20 (4 / 3)).1 ≤ (80 : Int) ∧
    (fitGrid 80 20 (4 / 3)).2 ≤ (20 : Int) := by
  refine ⟨?_, (fitGrid_capacity 80 20 (4 / 3) (by norm_num) (by norm_num) (by norm_num)).1,
    (fitGrid_capacity 80 20 (4 / 3) (by norm_num) (by norm_num) (by norm_num)).2.1⟩
  have h53 : ⌊(20 : ℚ) * (4 / 3) * 2⌋ = 53 := by
    rw [Int.floor_eq_iff]
    norm_num
  have hcond : ¬ (80 : ℚ) / (4 / 3 * 2) ≤ (20 : ℚ) := by norm_num
  simp [fitGrid, hcond, h53]

theorem onFrame_fst_pending (st : VOState) (h : (onFrame st).1 = true) :
    st.pendingFrame = false := by
  obtain ⟨mode, wr, fc, n, pf⟩ := st
  cases mode <;> cases wr <;> cases pf <;> simp_all [onFrame]

theorem onFrame_pending_eq (st : VOState) :
    (onFrame st).2.pendingFrame = ((onFrame st).1 || st.pendingFrame) := by
  obtain ⟨mode, wr, fc, n, pf⟩ := st
  cases mode <;> cases wr <;> cases pf <;> simp_all [onFrame] <;> split <;> rfl

theorem runCount_inv (es : List VOEvent) :
    ∀ (st : VOState) (d c : Nat), validTrace st es = true →
      d = c + (if st.pendingFrame then 1 else 0) →
      (runCount st es (d, c)).2.1 =
        (runCount st es (d, c)).2.2 +
          (if (runCount st es (d, c)).1.pendingFrame then 1 else 0) := by
  induction es with
  | nil =>
    intro st d c _ h
    simpa [runCount] using h
  | cons e tl ih =>
    intro st d c hv h
    cases e with
    | frame =>
      simp only [validTrace] at hv
      simp only [runCount]
      apply ih _ _ _ hv
      rw [onFrame_pending_eq]
      cases hf : (onFrame st).1
      · simp only [hf, Bool.false_or]
        simpa using h
      · have hpf := onFrame_fst_pending st hf
        rw [hpf] at h
        simp only [hf, Bool.true_or]
        simp at h ⊢
        omega
    | complete =>
      simp only [validTrace, Bool.and_eq_true] at hv
      obtain ⟨hpf, hv⟩ := hv
      simp only [runCount]
      apply ih _ _ _ hv
      rw [hpf] at h
      simp only [onWorkerFrameMsg]
      simp at h ⊢
      omega

/-- C1: a frame arriving while `pendingFrame` is set is not posted to the
worker and leaves `pendingFrame` set; `pendingFrame` becomes true exactly when
a request is posted and is cleared only by the worker's completion message;
along any valid trace the number of dispatched requests never exceeds the
number of completed ones by more than 1. -/
theorem render_backpressure :
    (∀ st : VOState, st.pendingFrame = true →
      (onFrame st).1 = false ∧ (onFrame st).2.pendingFrame = true) ∧
    (∀ st : VOState, (onFrame st).2.pendingFrame = ((onFrame st).1 || st.pendingFrame)) ∧
    (∀ st : VOState, (onWorkerFrameMsg st).pendingFrame = false) ∧
    (∀ (st : VOState) (es : List VOEvent), validTrace st es = true →
      st.pendingFrame = false →
      (runCount st es (0, 0)).2.1 ≤ (runCount st es (0, 0)).2.2 + 1) := by
  have h1 : ∀ st : VOState, st.pendingFrame = true → (onFrame st).1 = false := by
    intro st hpf
    cases hf : (onFrame st).1
    · rfl
    · rw [onFrame_fst_pending st hf] at hpf
      exact absurd hpf (by simp)
  refine ⟨fun st hpf => ⟨h1 st hpf, ?_⟩, onFrame_pending_eq, fun st => rfl, ?_⟩
  · rw [onFrame_pending_eq, h1 st hpf, hpf]
    rfl
  · intro st es hv hpf
    have := runCount_inv es st 0 0 hv (by rw [hpf]; simp)
    split at this <;> omega

/-- Witness for `render_backpressure`: a pending frame is dropped, and the
dispatched/completed difference stays at most 1 on a concrete valid trace. -/
theorem render_backpressure_witness :
    (onFrame ⟨VideoMode.terminal, true, 0, 1, true⟩).1 = false ∧
    (runCount ⟨VideoMode.terminal, true, 0, 1, false⟩
        [VOEvent.frame, VOEvent.complete, VOEvent.frame] (0, 0)).2.1 ≤
      (runCount ⟨VideoMode.terminal, true, 0, 1, false⟩
        [VOEvent.frame, VOEvent.complete, VOEvent.frame] (0, 0)).2.2 + 1 :=
  ⟨(render_backpressure.1 ⟨VideoMode.terminal, true, 0, 1, true⟩ rfl).1,
   render_backpressure.2.2.2 ⟨VideoMode.terminal, true, 0, 1, false⟩
     [VOEvent.frame, VOEvent.complete, VOEvent.frame] (by decide) rfl⟩

/-- C4: the `SET_PIXEL_FORMAT` case of the environment handler rejects (returns
false, leaving the active format unchanged) any requested format other than the
three supported encodings, and accepts (returns true, recording the format)
each of the three. -/
theorem set_pixel_format_validation (fuel : Nat) (st : HostState) (mem : EnvMem)
    (cmd : Nat) (dataPtr : Int)
    (hcmd : cmd &&& 0xFFFEFFFF = RETRO_ENVIRONMENT_SET_PIXEL_FORMAT) :
    (mem.i32 dataPtr ≠ RETRO_PIXEL_FORMAT_0RGB1555 ∧
     mem.i32 dataPtr ≠ RETRO_PIXEL_FORMAT_XRGB8888 ∧
     mem.i32 dataPtr ≠ RETRO_PIXEL_FORMAT_RGB565 →
      (handleEnvironment fuel st mem cmd dataPtr).1 = false ∧
      (handleEnvironment fuel st mem cmd dataPtr).2.1.pixelFormat = st.pixelFormat) ∧
    (mem.i32 dataPtr = RETRO_PIXEL_FORMAT_0RGB1555 ∨
     mem.i32 dataPtr = RETRO_PIXEL_FORMAT_XRGB8888 ∨
     mem.i32 dataPtr = RETRO_PIXEL_FORMAT_RGB565 →
      (handleEnvironment fuel st mem cmd dataPtr).1 = true ∧
      (handleEnvironment fuel st mem cmd dataPtr).2.1.pixelFormat = mem.i32 dataPtr) := by
  unfold handleEnvironment
  rw [hcmd]
  constructor
  · rintro ⟨h1, h2, h3⟩
    simp [handleEnvBase, RETRO_ENVIRONMENT_GET_CAN_DUPE, RETRO_ENVIRONMENT_SET_MESSAGE,
      RETRO_ENVIRONMENT_SET_PIXEL_FORMAT, h1, h2, h3]
  · intro h
    rcases h with h | h | h <;>
      simp [handleEnvBase, RETRO_ENVIRONMENT_GET_CAN_DUPE, RETRO_ENVIRONMENT_SET_MESSAGE,
        RETRO_ENVIRONMENT_SET_PIXEL_FORMAT, h]

/-- Witness for `set_pixel_format_validation`: format 99 is rejected and the
active format stays at its initial value 0. -/
theorem set_pixel_format_validation_witness :
    (handleEnvironment 0 ⟨0, [], false, true, "", "", [], 1⟩
        ⟨fun _ => 99, fun _ => 0, fun _ => ""⟩ 10 0).1 = false ∧
    (handleEnvironment 0 ⟨0, [], false, true, "", "", [], 1⟩
        ⟨fun _ => 99, fun _ => 0, fun _ => ""⟩ 10 0).2.1.pixelFormat = 0 :=
  (set_pixel_format_validation 0 ⟨0, [], false, true, "", "", [], 1⟩
      ⟨fun _ => 99, fun _ => 0, fun _ => ""⟩ 10 0 (by decide)).1
    (by refine ⟨?_, ?_, ?_⟩ <;> decide)

/-- C5: `GET_VARIABLE` returns false and writes a null value pointer for a key
absent from the variable table; for a declared key it returns true and the
written pointer holds the variable's stored value; and a variable declared via
a `SET_VARIABLES` entry is initialised to the first option of its parsed
option list. -/
theorem get_variable_lookup (fuel : Nat) (st : HostState) (mem : EnvMem) (cmd : Nat)
    (dataPtr : Int) (hcmd : cmd &&& 0xFFFEFFFF = RETRO_ENVIRONMENT_GET_VARIABLE)
    (hkey : mem.i32 dataPtr ≠ 0) :
    (mapGet st.coreVariables (mem.str (mem.i32 dataPtr)) = none →
      (handleEnvironment fuel st mem cmd dataPtr).1 = false ∧
      (handleEnvironment fuel st mem cmd dataPtr).2.2.i32 (dataPtr + 4) = 0) ∧
    (∀ v : CoreVar, mapGet st.coreVariables (mem.str (mem.i32 dataPtr)) = some v →
      (handleEnvironment fuel st mem cmd dataPtr).1 = true ∧
      (handleEnvironment fuel st mem cmd dataPtr).2.2.str
          ((handleEnvironment fuel st mem cmd dataPtr).2.2.i32 (dataPtr + 4)) = v.value) ∧
    (∀ (vars : List (String × CoreVar)) (key desc : String),
      0 ≤ jsIndexOf desc "; " →
      ∃ w : CoreVar,
        mapGet (parseVarDecl vars key desc) key = some w ∧
        w.value = w.options.headD "" ∧
        w.options = jsSplit (jsSubstringFrom desc ((jsIndexOf desc "; ").toNat + 2)) '|') := by
  unfold handleEnvironment
  rw [hcmd]
  refine ⟨?_, ?_, ?_⟩
  · intro hnone
    simp [handleEnvBase, RETRO_ENVIRONMENT_GET_CAN_DUPE, RETRO_ENVIRONMENT_SET_MESSAGE,
      RETRO_ENVIRONMENT_SET_PIXEL_FORMAT, RETRO_ENVIRONMENT_GET_SYSTEM_DIRECTORY,
      RETRO_ENVIRONMENT_GET_SAVE_DIRECTORY, RETRO_ENVIRONMENT_GET_LOG_INTERFACE,
      RETRO_ENVIRONMENT_SET_VARIABLES, RETRO_ENVIRONMENT_GET_VARIABLE,
      hkey, hnone, setI32]
  · intro v hv
    simp [handleEnvBase, RETRO_ENVIRONMENT_GET_CAN_DUPE, RETRO_ENVIRONMENT_SET_MESSAGE,
      RETRO_ENVIRONMENT_SET_PIXEL_FORMAT, RETRO_ENVIRONMENT_GET_SYSTEM_DIRECTORY,
      RETRO_ENVIRONMENT_GET_SAVE_DIRECTORY, RETRO_ENVIRONMENT_GET_LOG_INTERFACE,
      RETRO_ENVIRONMENT_SET_VARIABLES, RETRO_ENVIRONMENT_GET_VARIABLE,
      hkey, hv, setI32, allocString]
  · intro vars key desc hsep
    unfold parseVarDecl
    rw [if_pos hsep]
    exact ⟨_, mapGet_mapSet_self _ _ _, rfl, rfl⟩

/-- Witness for `get_variable_lookup`: a declared variable reads back its
stored (default) value, and parsing a declaration yields the first option as
the value. -/
theorem get_variable_lookup_witness :
    (handleEnvironment 0
        ⟨0, [("snes_region", ⟨"Region", ["Auto", "NTSC"], "Auto"⟩)], false, true, "", "", [], 1000⟩
        ⟨fun a => if a = 0 then 500 else 0, fun _ => 0,
         fun a => if a = 500 then "snes_region" else ""⟩ 15 0).1 = true ∧
    (handleEnvironment 0
        ⟨0, [("snes_region", ⟨"Region", ["Auto", "NTSC"], "Auto"⟩)], false, true, "", "", [], 1000⟩
        ⟨fun a => if a = 0 then 500 else 0, fun _ => 0,
         fun a => if a = 500 then "snes_region" else ""⟩ 15 0).2.2.str
      ((handleEnvironment 0
        ⟨0, [("snes_region", ⟨"Region", ["Auto", "NTSC"], "Auto"⟩)], false, true, "", "", [], 1000⟩
        ⟨fun a => if a = 0 then 500 else 0, fun _ => 0,
         fun a => if a = 500 then "snes_region" else ""⟩ 15 0).2.2.i32 (0 + 4)) = "Auto" :=
  (get_variable_lookup 0
      ⟨0, [("snes_region", ⟨"Region", ["Auto", "NTSC"], "Auto"⟩)], false, true, "", "", [], 1000⟩
      ⟨fun a => if a = 0 then 500 else 0, fun _ => 0,
       fun a => if a = 500 then "snes_region" else ""⟩ 15 0 (by decide) (by decide)).2.1
    ⟨"Region", ["Auto", "NTSC"], "Auto"⟩ (by decide)

/-- C10: `SET_VARIABLES` always returns true and folds the declared entries
into the table with the parsing loop body; an entry whose description lacks
the `"; "` separator is skipped, so a later `GET_VARIABLE` for a key declared
only by such entries still fails. -/
theorem set_variables_skip_malformed (fuel : Nat) (st : HostState) (mem : EnvMem)
    (cmd : Nat) (dataPtr : Int)
    (hcmd : cmd &&& 0xFFFEFFFF = RETRO_ENVIRONMENT_SET_VARIABLES) :
    (handleEnvironment fuel st mem cmd dataPtr).1 = true ∧
    (handleEnvironment fuel st mem cmd dataPtr).2.1.coreVariables =
      (readVarEntries fuel mem dataPtr).foldl
        (fun vs kv => parseVarDecl vs kv.1 kv.2) st.coreVariables ∧
    (∀ (vars : List (String × CoreVar)) (key desc : String),
      jsIndexOf desc "; " < 0 → parseVarDecl vars key desc = vars) ∧
    (∀ (entries : List (String × String)) (vars : List (String × CoreVar)) (key : String),
      mapGet vars key = none →
      (∀ e ∈ entries, e.1 = key → jsIndexOf e.2 "; " < 0) →
      mapGet (entries.foldl (fun vs kv => parseVarDecl vs kv.1 kv.2) vars) key = none) ∧
    (∀ (st' : HostState) (mem' : EnvMem) (cmd' : Nat) (p' : Int),
      cmd' &&& 0xFFFEFFFF = RETRO_ENVIRONMENT_GET_VARIABLE →
      mem'.i32 p' ≠ 0 →
      mapGet st'.coreVariables (mem'.str (mem'.i32 p')) = none →
      (handleEnvironment fuel st' mem' cmd' p').1 = false) := by
  have hskip : ∀ (vars : List (String × CoreVar)) (key desc : String),
      jsIndexOf desc "; " < 0 → parseVarDecl vars key desc = vars := by
    intro vars key desc hlt
    unfold parseVarDecl
    rw [if_neg (not_le.2 hlt)]
  have hfold : ∀ (entries : List (String × String)) (vars : List (String × CoreVar))
      (key : String), mapGet vars key = none →
      (∀ e ∈ entries, e.1 = key → jsIndexOf e.2 "; " < 0) →
      mapGet (entries.foldl (fun vs kv => parseVarDecl vs kv.1 kv.2) vars) key = none := by
    intro entries
    induction entries with
    | nil => intro vars key h _; simpa using h
    | cons e tl ih =>
      intro vars key h hall
      simp only [List.foldl_cons]
      apply ih
      · by_cases hk : e.1 = key
        · rw [hskip vars e.1 e.2 (hall e (by simp) hk)]
          exact h
        · by_cases hs : 0 ≤ jsIndexOf e.2 "; "
          · unfold parseVarDecl
            rw [if_pos hs, mapGet_mapSet_ne _ _ _ _ hk]
            exact h
          · rw [hskip vars e.1 e.2 (not_le.1 hs)]
            exact h
      · intro e' he' hk'
        exact hall e' (by simp [he']) hk'
  constructor
  · unfold handleEnvironment
    rw [hcmd]
    simp [handleEnvBase, RETRO_ENVIRONMENT_GET_CAN_DUPE, RETRO_ENVIRONMENT_SET_MESSAGE,
      RETRO_ENVIRONMENT_SET_PIXEL_FORMAT, RETRO_ENVIRONMENT_GET_SYSTEM_DIRECTORY,
      RETRO_ENVIRONMENT_GET_SAVE_DIRECTORY, RETRO_ENVIRONMENT_GET_LOG_INTERFACE,
      RETRO_ENVIRONMENT_SET_VARIABLES]
  refine ⟨?_, hskip, hfold, ?_⟩
  · unfold handleEnvironment
    rw [hcmd]
    simp [handleEnvBase, RETRO_ENVIRONMENT_GET_CAN_DUPE, RETRO_ENVIRONMENT_SET_MESSAGE,
      RETRO_ENVIRONMENT_SET_PIXEL_FORMAT, RETRO_ENVIRONMENT_GET_SYSTEM_DIRECTORY,
      RETRO_ENVIRONMENT_GET_SAVE_DIRECTORY, RETRO_ENVIRONMENT_GET_LOG_INTERFACE,
      RETRO_ENVIRONMENT_SET_VARIABLES]
  · intro st' mem' cmd' p' hcmd' hkey' hnone'
    unfold handleEnvironment
    rw [hcmd']
    simp [handleEnvBase, RETRO_ENVIRONMENT_GET_CAN_DUPE, RETRO_ENVIRONMENT_SET_MESSAGE,
      RETRO_ENVIRONMENT_SET_PIXEL_FORMAT, RETRO_ENVIRONMENT_GET_SYSTEM_DIRECTORY,
      RETRO_ENVIRONMENT_GET_SAVE_DIRECTORY, RETRO_ENVIRONMENT_GET_LOG_INTERFACE,
      RETRO_ENVIRONMENT_SET_VARIABLES, RETRO_ENVIRONMENT_GET_VARIABLE, hkey', hnone']

/-- Witness for `set_variables_skip_malformed`: a single declared entry whose
description has no separator leaves the table empty, and the call still
returns true. -/
theorem set_variables_skip_malformed_witness :
    (handleEnvironment 2 ⟨0, [], false, true, "", "", [], 1⟩
        ⟨fun a => if a = 0 then 300 else if a = 4 then 400 else 0, fun _ => 0,
         fun a => if a = 300 then "foo" else if a = 400 then "no separator" else ""⟩
        16 0).1 = true ∧
    parseVarDecl [] "foo" "no separator" = [] :=
  ⟨(set_variables_skip_malformed 2 ⟨0, [], false, true, "", "", [], 1⟩
      ⟨fun a => if a = 0 then 300 else if a = 4 then 400 else 0, fun _ => 0,
       fun a => if a = 300 then "foo" else if a = 400 then "no separator" else ""⟩
      16 0 (by decide)).1,
   (set_variables_skip_malformed 2 ⟨0, [], false, true, "", "", [], 1⟩
      ⟨fun a => if a = 0 then 300 else if a = 4 then 400 else 0, fun _ => 0,
       fun a => if a = 300 then "foo" else if a = 400 then "no separator" else ""⟩
      16 0 (by decide)).2.2.1 [] "foo" "no separator" (by decide)⟩

end RetroEmu
